import Mathlib

/-!
Verification of the entity-simulation core of Halloween Haunt: Candy Quest.

The Python sources (`halloween_haunt.py`, `entities.py`, `special_features.py`)
are shallowly embedded: float arithmetic is modelled with real numbers,
Python ints with `Int`, lists with `List`, and `random`-dependent results
(particle bursts, shuffles) are passed in as explicit oracle parameters.
Fields that no update logic ever reads (sprites, rects, `facing_direction`,
the unused `PowerUp.strength`) are omitted from the state.
-/

namespace HalloweenHaunt

/-! ### Constants from `halloween_haunt.py` -/

def TILE_SIZE : ℤ := 32

noncomputable def PLAYER_MAX_SPEED : ℝ := 3.0
noncomputable def PLAYER_ACCELERATION : ℝ := 0.2
noncomputable def PLAYER_DECELERATION : ℝ := 0.15
noncomputable def GHOST_SPEED : ℝ := 1.5
noncomputable def GHOST_CHASE_SPEED : ℝ := 2.5
noncomputable def GHOST_DETECTION_RADIUS : ℝ := 100

def PLAYER_MAX_HEALTH : ℤ := 3
def INVINCIBILITY_DURATION : ℤ := 120

/-- `TileType` enum from `halloween_haunt.py`. -/
inductive TileType where
  | EMPTY
  | STREET
  | HOUSE
  | WALL
  | CHURCH
  | GRAVE
  | TREE
  | DOOR
  | CHURCH_DOOR
  | CEMETERY_GATE
  | TRASH_CAN
deriving DecidableEq, BEq, Repr

/-- `PowerUpType` enum from `halloween_haunt.py`. -/
inductive PowerUpType where
  | CANDY_MAGNET
  | GHOST_REPEL
  | EXTRA_HEART
  | SPEED_BOOST
  | ZOMBIE_POWER
  | INVISIBILITY
  | TIME_SLOW
  | DOUBLE_POINTS
  | SHIELD
deriving DecidableEq, BEq, Repr

/-- `PowerUp` dataclass: an active effect with its remaining duration
(the unused `strength` field is omitted). -/
structure PowerUp where
  type : PowerUpType
  duration : ℤ
deriving DecidableEq, Repr

/-- `Particle` from `halloween_haunt.py` (visual payload only). -/
structure Particle where
  x : ℝ
  y : ℝ
  vx : ℝ
  vy : ℝ
  color : ℤ × ℤ × ℤ
  lifetime : ℤ

/-! ### Player state (`entities.py`, class `Player`) -/

/-- The mutable state of `Player` that the update/damage/heal/collect
logic reads or writes. -/
structure Player where
  x : ℝ
  y : ℝ
  vx : ℝ
  vy : ℝ
  health : ℤ
  candies_collected : ℤ
  score : ℤ
  invincible_timer : ℤ
  active_powerups : List PowerUp
  invisibility_active : Bool
  time_slow_active : Bool
  double_points_active : Bool
  shield_active : Bool

/-- `Player.__init__(x, y)`. -/
def mkPlayer (x y : ℝ) : Player :=
  { x := x, y := y, vx := 0, vy := 0,
    health := PLAYER_MAX_HEALTH, candies_collected := 0, score := 0,
    invincible_timer := 0, active_powerups := [],
    invisibility_active := false, time_slow_active := false,
    double_points_active := false, shield_active := false }

/-- `Player.take_damage`: damage goes through only when the invincibility
timer has run out and no shield flag is set. -/
def Player.take_damage (p : Player) : Player × Bool :=
  if p.invincible_timer ≤ 0 ∧ p.shield_active = false then
    ({ p with health := p.health - 1, invincible_timer := INVINCIBILITY_DURATION }, true)
  else
    (p, false)

/-- `Player.collect_candy(points)`. -/
def Player.collect_candy (p : Player) (points : ℤ) : Player :=
  let actual_points := points * (if p.double_points_active then 2 else 1)
  { p with candies_collected := p.candies_collected + 1, score := p.score + actual_points }

/-- `Player.add_powerup(powerup_type, duration)`: drop any prior instance
of the same kind, then append the fresh one. -/
def Player.add_powerup (p : Player) (powerup_type : PowerUpType) (duration : ℤ) : Player :=
  { p with active_powerups :=
      p.active_powerups.filter (fun q => q.type ≠ powerup_type) ++ [⟨powerup_type, duration⟩] }

/-- `Player.heal(amount)`: clamps at 5 hearts. -/
def Player.heal (p : Player) (amount : ℤ) : Player :=
  { p with health := min 5 (p.health + amount) }

/-- `Player._update_powerups`: prune expired effects, then decrement the
remaining durations. -/
def update_powerups (l : List PowerUp) : List PowerUp :=
  (l.filter (fun q => 0 < q.duration)).map (fun q => { q with duration := q.duration - 1 })

/-! ### TileMap (`entities.py`, class `TileMap`) -/

/-- Tile grid with its declared dimensions. -/
structure TileMap where
  width : ℤ
  height : ℤ
  tiles : List (List TileType)

/-- `TileMap.__init__(width, height)`: an all-`EMPTY` grid. -/
def mkTileMap (width height : ℤ) : TileMap :=
  { width := width, height := height,
    tiles := List.replicate height.toNat (List.replicate width.toNat TileType.EMPTY) }

/-- `TileMap.set_tile`: writes are silently dropped when out of bounds. -/
def TileMap.set_tile (m : TileMap) (x y : ℤ) (tile_type : TileType) : TileMap :=
  if 0 ≤ x ∧ x < m.width ∧ 0 ≤ y ∧ y < m.height then
    { m with tiles := m.tiles.set y.toNat ((m.tiles.getD y.toNat []).set x.toNat tile_type) }
  else
    m

/-- `TileMap.get_tile`: out-of-bounds reads resolve to `WALL`. -/
def TileMap.get_tile (m : TileMap) (x y : ℤ) : TileType :=
  if 0 ≤ x ∧ x < m.width ∧ 0 ≤ y ∧ y < m.height then
    (m.tiles.getD y.toNat []).getD x.toNat TileType.EMPTY
  else
    TileType.WALL

/-- `TileMap.is_solid_tile`: membership in the fixed solid set. -/
def TileMap.is_solid_tile (m : TileMap) (x y : ℤ) : Bool :=
  [TileType.WALL, TileType.HOUSE, TileType.CHURCH,
   TileType.GRAVE, TileType.TREE, TileType.TRASH_CAN].contains (m.get_tile x y)

/-- `TileMap.is_door_tile`. -/
def TileMap.is_door_tile (m : TileMap) (x y : ℤ) : Bool :=
  [TileType.DOOR, TileType.CHURCH_DOOR, TileType.CEMETERY_GATE].contains (m.get_tile x y)

/-! ### Claim C1: `take_damage` behaviour -/

/-- C1. `take_damage` while `invincible_timer > 0` or while the shield
flag is set leaves the player (health included) unchanged and returns
`false`; in every other state it decrements health by exactly 1, resets
the invincibility timer to `INVINCIBILITY_DURATION`, and returns `true`. -/
theorem take_damage_spec (p : Player) :
    ((0 < p.invincible_timer ∨ p.shield_active = true) → p.take_damage = (p, false)) ∧
    (p.invincible_timer ≤ 0 → p.shield_active = false →
      (p.take_damage.1.health = p.health - 1 ∧
       p.take_damage.1.invincible_timer = INVINCIBILITY_DURATION ∧
       p.take_damage.2 = true)) := by
  constructor
  · intro h
    have hcond : ¬ (p.invincible_timer ≤ 0 ∧ p.shield_active = false) := by
      rcases h with h | h
      · intro hc; omega
      · intro hc; rw [h] at hc; exact absurd hc.2 (by simp)
    simp [Player.take_damage, hcond]
  · intro h1 h2
    simp [Player.take_damage, h1, h2]

/-- Witness for C1 at a concrete invincible player. -/
theorem take_damage_spec_witness :
    (0 < ({ mkPlayer 48 48 with invincible_timer := 5 } : Player).invincible_timer ∨
      ({ mkPlayer 48 48 with invincible_timer := 5 } : Player).shield_active = true) ∧
    ({ mkPlayer 48 48 with invincible_timer := 5 } : Player).take_damage =
      ({ mkPlayer 48 48 with invincible_timer := 5 }, false) :=
  ⟨Or.inl (by norm_num [mkPlayer]),
   (take_damage_spec _).1 (Or.inl (by norm_num [mkPlayer]))⟩

/-! ### Claim C2: out-of-bounds tile access -/

/-- C2. For coordinates outside `[0,width) × [0,height)`, `get_tile`
returns `WALL`, `is_solid_tile` returns `true`, and `set_tile` leaves the
map unchanged; all three are total on every integer input. -/
theorem tilemap_out_of_bounds (m : TileMap) (x y : ℤ) (tile_type : TileType)
    (h : ¬ (0 ≤ x ∧ x < m.width ∧ 0 ≤ y ∧ y < m.height)) :
    m.get_tile x y = TileType.WALL ∧
    m.is_solid_tile x y = true ∧
    m.set_tile x y tile_type = m := by
  refine ⟨?_, ?_, ?_⟩
  · simp [TileMap.get_tile, h]
  · simp [TileMap.is_solid_tile, TileMap.get_tile, h]
    exact Or.inl rfl
  · simp [TileMap.set_tile, h]

/-- Witness for C2 at a negative coordinate on a concrete 3×3 map. -/
theorem tilemap_out_of_bounds_witness :
    (¬ (0 ≤ (-1 : ℤ) ∧ (-1 : ℤ) < (mkTileMap 3 3).width ∧
        0 ≤ (0 : ℤ) ∧ (0 : ℤ) < (mkTileMap 3 3).height)) ∧
    ((mkTileMap 3 3).get_tile (-1) 0 = TileType.WALL ∧
     (mkTileMap 3 3).is_solid_tile (-1) 0 = true ∧
     (mkTileMap 3 3).set_tile (-1) 0 TileType.STREET = mkTileMap 3 3) :=
  ⟨by decide, tilemap_out_of_bounds (mkTileMap 3 3) (-1) 0 TileType.STREET (by decide)⟩

/-! ### Player movement (`Player.update` in `entities.py`) -/

/-- The four directional inputs read by `Player.update`. -/
structure Keys where
  left : Bool
  right : Bool
  up : Bool
  down : Bool

/-- No key pressed. -/
def noKeys : Keys := ⟨false, false, false, false⟩

/-- One step of the power-up scanning loop in `Player.update`
(accumulator: speed multiplier, invisibility, time-slow, double-points,
shield flags). -/
noncomputable def scan_step (acc : ℝ × Bool × Bool × Bool × Bool) (q : PowerUp) :
    ℝ × Bool × Bool × Bool × Bool :=
  match q.type with
  | PowerUpType.SPEED_BOOST => (acc.1 * 1.5, acc.2.1, acc.2.2.1, acc.2.2.2.1, acc.2.2.2.2)
  | PowerUpType.INVISIBILITY => (acc.1, true, acc.2.2.1, acc.2.2.2.1, acc.2.2.2.2)
  | PowerUpType.TIME_SLOW => (acc.1, acc.2.1, true, acc.2.2.2.1, acc.2.2.2.2)
  | PowerUpType.DOUBLE_POINTS => (acc.1, acc.2.1, acc.2.2.1, true, acc.2.2.2.2)
  | PowerUpType.SHIELD => (acc.1, acc.2.1, acc.2.2.1, acc.2.2.2.1, true)
  | _ => acc

/-- The power-up scanning loop of `Player.update`. -/
noncomputable def powerup_scan (l : List PowerUp) : ℝ × Bool × Bool × Bool × Bool :=
  l.foldl scan_step (1.0, false, false, false, false)

/-- `Player._check_wall_collision(x, y, tile_map)`: the four corners of the
radius-12 bounding square, each mapped to its containing tile. -/
noncomputable def Player.check_wall_collision (x y : ℝ) (tile_map : TileMap) : Bool :=
  [(x - 12, y - 12), (x + 12, y - 12), (x - 12, y + 12), (x + 12, y + 12)].any
    (fun c => tile_map.is_solid_tile ⌊c.1 / (TILE_SIZE : ℝ)⌋ ⌊c.2 / (TILE_SIZE : ℝ)⌋)

/-- `Player.update(keys_pressed, tile_map)`: acceleration from input,
per-axis deceleration, power-up flag refresh, speed clamp,
axis-separated wall collision, invincibility countdown, power-up pruning. -/
noncomputable def Player.update (p : Player) (keys : Keys) (tile_map : TileMap) : Player :=
  let acceleration_x : ℝ :=
    if keys.right then PLAYER_ACCELERATION else if keys.left then -PLAYER_ACCELERATION else 0
  let acceleration_y : ℝ :=
    if keys.down then PLAYER_ACCELERATION else if keys.up then -PLAYER_ACCELERATION else 0
  let vx1 := p.vx + acceleration_x
  let vy1 := p.vy + acceleration_y
  let vx2 := if acceleration_x = 0 then vx1 * (1 - PLAYER_DECELERATION) else vx1
  let vy2 := if acceleration_y = 0 then vy1 * (1 - PLAYER_DECELERATION) else vy1
  let scan := powerup_scan p.active_powerups
  let max_speed := PLAYER_MAX_SPEED * scan.1
  let speed := Real.sqrt (vx2 ^ 2 + vy2 ^ 2)
  let vx3 := if max_speed < speed then vx2 / speed * max_speed else vx2
  let vy3 := if max_speed < speed then vy2 / speed * max_speed else vy2
  let new_x := p.x + vx3
  let new_y := p.y + vy3
  let hit_x := Player.check_wall_collision new_x p.y tile_map
  let x2 := if hit_x then p.x else new_x
  let vx4 : ℝ := if hit_x then 0 else vx3
  let hit_y := Player.check_wall_collision x2 new_y tile_map
  let y2 := if hit_y then p.y else new_y
  let vy4 : ℝ := if hit_y then 0 else vy3
  { p with
    x := x2, y := y2, vx := vx4, vy := vy4,
    invisibility_active := scan.2.1,
    time_slow_active := scan.2.2.1,
    double_points_active := scan.2.2.2.1,
    shield_active := scan.2.2.2.2,
    invincible_timer :=
      if 0 < p.invincible_timer then p.invincible_timer - 1 else p.invincible_timer,
    active_powerups := update_powerups p.active_powerups }

/-- Euclidean velocity magnitude of the player. -/
noncomputable def Player.speed_magnitude (p : Player) : ℝ :=
  Real.sqrt (p.vx ^ 2 + p.vy ^ 2)

/-- Whether a power-up of the given kind is in the player's active set. -/
def has_powerup (p : Player) (t : PowerUpType) : Bool :=
  p.active_powerups.any (fun q => q.type == t)

/-! ### Claim C3: speed bound after one update -/

theorem scan_step_fst (acc : ℝ × Bool × Bool × Bool × Bool) (q : PowerUp) :
    (scan_step acc q).1 = if q.type == PowerUpType.SPEED_BOOST then acc.1 * 1.5 else acc.1 := by
  cases q with
  | mk t d => cases t <;> rfl

theorem scan_fst (l : List PowerUp) (acc : ℝ × Bool × Bool × Bool × Bool) :
    (l.foldl scan_step acc).1 =
      acc.1 * 1.5 ^ (l.countP (fun q => q.type == PowerUpType.SPEED_BOOST)) := by
  induction l generalizing acc with
  | nil => simp
  | cons q l ih =>
    rw [List.foldl_cons, ih, List.countP_cons, scan_step_fst]
    by_cases hq : q.type == PowerUpType.SPEED_BOOST
    · simp [hq, pow_succ]; ring
    · simp [hq]

theorem powerup_scan_fst_of_count_le_one (p : Player)
    (h : p.active_powerups.countP (fun q => q.type == PowerUpType.SPEED_BOOST) ≤ 1) :
    (powerup_scan p.active_powerups).1 =
      if has_powerup p PowerUpType.SPEED_BOOST then (1.5 : ℝ) else 1 := by
  have hfst := scan_fst p.active_powerups (1.0, false, false, false, false)
  rcases Nat.le_one_iff_eq_zero_or_eq_one.mp h with h0 | h1
  · have hany : has_powerup p PowerUpType.SPEED_BOOST = false := by
      rw [has_powerup]
      rw [List.countP_eq_zero] at h0
      cases hA : p.active_powerups.any (fun q => q.type == PowerUpType.SPEED_BOOST) with
      | false => rfl
      | true =>
        rw [List.any_eq_true] at hA
        obtain ⟨q, hq, hqt⟩ := hA
        exact absurd hqt (h0 q hq)
    rw [powerup_scan, hfst, h0, hany]
    norm_num
  · have hany : has_powerup p PowerUpType.SPEED_BOOST = true := by
      rw [has_powerup, List.any_eq_true]
      have : 0 < p.active_powerups.countP (fun q => q.type == PowerUpType.SPEED_BOOST) := by
        omega
      rw [List.countP_pos_iff] at this
      obtain ⟨q, hq, hqt⟩ := this
      exact ⟨q, hq, hqt⟩
    rw [powerup_scan, hfst, h1, hany]
    norm_num

theorem clamped_speed_le (u w M : ℝ) (hM : 0 < M) (b1 b2 : Bool) :
    Real.sqrt
      ((if b1 then (0 : ℝ) else
          if M < Real.sqrt (u ^ 2 + w ^ 2) then u / Real.sqrt (u ^ 2 + w ^ 2) * M else u) ^ 2 +
       (if b2 then (0 : ℝ) else
          if M < Real.sqrt (u ^ 2 + w ^ 2) then w / Real.sqrt (u ^ 2 + w ^ 2) * M else w) ^ 2) ≤
    M := by
  set s := Real.sqrt (u ^ 2 + w ^ 2) with hs_def
  have hstep : Real.sqrt ((if M < s then u / s * M else u) ^ 2 +
      (if M < s then w / s * M else w) ^ 2) ≤ M := by
    by_cases hlt : M < s
    · have hspos : 0 < s := hM.trans hlt
      have hsum_pos : 0 < u ^ 2 + w ^ 2 := by
        rw [hs_def] at hspos
        exact Real.sqrt_pos.mp hspos
      have hs2 : s ^ 2 = u ^ 2 + w ^ 2 := Real.sq_sqrt (by positivity)
      have hexp : (u / s * M) ^ 2 + (w / s * M) ^ 2 = M ^ 2 * ((u ^ 2 + w ^ 2) / s ^ 2) := by
        field_simp
        ring
      rw [if_pos hlt, if_pos hlt, hexp, hs2, div_self (ne_of_gt hsum_pos), mul_one,
        Real.sqrt_sq hM.le]
    · rw [if_neg hlt, if_neg hlt, ← hs_def]
      exact le_of_not_lt hlt
  calc Real.sqrt ((if b1 then (0 : ℝ) else if M < s then u / s * M else u) ^ 2 +
        (if b2 then (0 : ℝ) else if M < s then w / s * M else w) ^ 2)
      ≤ Real.sqrt ((if M < s then u / s * M else u) ^ 2 +
        (if M < s then w / s * M else w) ^ 2) := by
        apply Real.sqrt_le_sqrt
        have key : ∀ (b : Bool) (z : ℝ), (if b then (0 : ℝ) else z) ^ 2 ≤ z ^ 2 := by
          intro b z
          cases b
          · simp
          · simpa using sq_nonneg z
        have h1 := key b1 (if M < s then u / s * M else u)
        have h2 := key b2 (if M < s then w / s * M else w)
        linarith
    _ ≤ M := hstep

/-- C3. After any single `Player.update`, the Euclidean velocity magnitude
is at most `PLAYER_MAX_SPEED × (1.5 if a SpeedBoost power-up is in the
active set, else 1.0)`; the hypothesis records the reachable-state
invariant (maintained by `add_powerup`, see C7) that the active set holds
at most one SpeedBoost entry. -/
theorem player_speed_bound (p : Player) (keys : Keys) (tile_map : TileMap)
    (h : p.active_powerups.countP (fun q => q.type == PowerUpType.SPEED_BOOST) ≤ 1) :
    (p.update keys tile_map).speed_magnitude ≤
      PLAYER_MAX_SPEED * (if has_powerup p PowerUpType.SPEED_BOOST then 1.5 else 1) := by
  have hmult := powerup_scan_fst_of_count_le_one p h
  have hMpos : 0 < PLAYER_MAX_SPEED * (powerup_scan p.active_powerups).1 := by
    rw [hmult]
    by_cases hb : has_powerup p PowerUpType.SPEED_BOOST = true <;>
      simp [hb, PLAYER_MAX_SPEED] <;> norm_num
  rw [← hmult]
  simp only [Player.update, Player.speed_magnitude]
  exact clamped_speed_le _ _ _ hMpos _ _

/-- Witness for C3 at a resting player on an empty map. -/
theorem player_speed_bound_witness :
    ((mkPlayer 48 48).active_powerups.countP
        (fun q => q.type == PowerUpType.SPEED_BOOST) ≤ 1) ∧
    ((mkPlayer 48 48).update noKeys (mkTileMap 3 3)).speed_magnitude ≤
      PLAYER_MAX_SPEED *
        (if has_powerup (mkPlayer 48 48) PowerUpType.SPEED_BOOST then 1.5 else 1) :=
  ⟨by decide, player_speed_bound (mkPlayer 48 48) noKeys (mkTileMap 3 3) (by decide)⟩

/-! ### Claims C6/C7: sequences of public `Player` operations -/

/-- A call to one of the public `Player` operations named by the claims. -/
inductive PlayerOp where
  | update (keys : Keys) (tile_map : TileMap)
  | damage
  | heal (amount : ℤ)
  | collect (points : ℤ)

/-- Apply one operation (the `Bool` result of `take_damage` is dropped). -/
noncomputable def apply_op (p : Player) : PlayerOp → Player
  | PlayerOp.update keys tile_map => p.update keys tile_map
  | PlayerOp.damage => p.take_damage.1
  | PlayerOp.heal amount => p.heal amount
  | PlayerOp.collect points => p.collect_candy points

/-- Apply a sequence of operations left to right. -/
noncomputable def apply_ops (p : Player) : List PlayerOp → Player
  | [] => p
  | op :: rest => apply_ops (apply_op p op) rest

theorem apply_ops_append (p : Player) (l1 l2 : List PlayerOp) :
    apply_ops p (l1 ++ l2) = apply_ops (apply_ops p l1) l2 := by
  induction l1 generalizing p with
  | nil => rfl
  | cons op rest ih => simp [apply_ops, ih]

theorem update_health (p : Player) (keys : Keys) (tile_map : TileMap) :
    (p.update keys tile_map).health = p.health := rfl

theorem update_active_powerups (p : Player) (keys : Keys) (tile_map : TileMap) :
    (p.update keys tile_map).active_powerups = update_powerups p.active_powerups := rfl

/-- An idle player standing at tile-aligned position (48, 48): no input,
no velocity, no power-ups. -/
def quietPlayer (health timer : ℤ) : Player :=
  { mkPlayer 48 48 with health := health, invincible_timer := timer }

/-- One no-input update of an idle player only ticks the invincibility
timer down. -/
theorem quiet_update (h t : ℤ) :
    (quietPlayer h t).update noKeys (mkTileMap 3 3) =
      quietPlayer h (if 0 < t then t - 1 else t) := by
  norm_num [Player.update, quietPlayer, mkPlayer, noKeys, powerup_scan,
    update_powerups, PLAYER_DECELERATION, PLAYER_MAX_SPEED]

theorem quiet_updates (k : ℕ) (h : ℤ) :
    apply_ops (quietPlayer h k) (List.replicate k (PlayerOp.update noKeys (mkTileMap 3 3))) =
      quietPlayer h 0 := by
  induction k with
  | zero => rfl
  | succ n ih =>
    rw [List.replicate_succ, apply_ops, apply_op, quiet_update,
      if_pos (by exact_mod_cast Nat.succ_pos n)]
    have hcast : ((n + 1 : ℕ) : ℤ) - 1 = (n : ℤ) := by push_cast; ring
    rw [hcast]
    exact ih

theorem quiet_damage (h : ℤ) :
    (quietPlayer h 0).take_damage = (quietPlayer (h - 1) 120, true) := by
  simp [Player.take_damage, quietPlayer, mkPlayer, INVINCIBILITY_DURATION]

/-- One full invincibility cycle: a hit followed by 120 idle ticks. -/
def damage_cycle : List PlayerOp :=
  PlayerOp.damage :: List.replicate 120 (PlayerOp.update noKeys (mkTileMap 3 3))

/-- Four hits with full invincibility windows elapsed between them. -/
def overkill_script : List PlayerOp :=
  damage_cycle ++ (damage_cycle ++ (damage_cycle ++ [PlayerOp.damage]))

theorem cycle_step (h : ℤ) :
    apply_ops (quietPlayer h 0) damage_cycle = quietPlayer (h - 1) 0 := by
  rw [damage_cycle, apply_ops, apply_op, quiet_damage]
  have := quiet_updates 120 (h - 1)
  norm_num at this
  exact this

/-- C6 counterexample: starting from the initial player (health 3), four
`take_damage` calls separated by full invincibility windows of no-input
updates drive health to −1, violating the claimed range `0..max`. -/
theorem player_health_range_cex :
    (apply_ops (mkPlayer 48 48) overkill_script).health = -1 ∧
    ¬ (0 ≤ (apply_ops (mkPlayer 48 48) overkill_script).health) := by
  have hstart : mkPlayer 48 48 = quietPlayer 3 0 := rfl
  have hfinal : apply_ops (mkPlayer 48 48) overkill_script = quietPlayer (-1) 120 := by
    rw [hstart, overkill_script, apply_ops_append, apply_ops_append, apply_ops_append,
      cycle_step, cycle_step, cycle_step]
    show apply_ops (quietPlayer 0 0) [PlayerOp.damage] = quietPlayer (-1) 120
    rw [apply_ops, apply_op, quiet_damage]
    rfl
  rw [hfinal]
  exact ⟨rfl, by norm_num [quietPlayer, mkPlayer]⟩

/-- C6 as amended. Starting from any player whose health does not exceed
the heal maximum of 5 (the initial value is 3), any sequence of `update`,
`take_damage`, `heal`, and `collect_candy` calls keeps health ≤ 5; the
lower bound 0 of the original claim is not enforced by `Player` itself
(see the counterexample), it is the game layer that ends the session at
health 0. -/
theorem player_health_upper_bound (p : Player) (l : List PlayerOp) (hp : p.health ≤ 5) :
    (apply_ops p l).health ≤ 5 := by
  induction l generalizing p with
  | nil => exact hp
  | cons op rest ih =>
    rw [apply_ops]
    apply ih
    cases op with
    | update keys tile_map => rw [apply_op, update_health]; exact hp
    | damage =>
      rw [apply_op, Player.take_damage]
      split
      · simp
        omega
      · exact hp
    | heal amount =>
      rw [apply_op, Player.heal]
      simp
    | collect points => exact hp

/-- Witness for the amended C6 at the initial player and one damage call. -/
theorem player_health_upper_bound_witness :
    (mkPlayer 48 48).health ≤ 5 ∧
    (apply_ops (mkPlayer 48 48) [PlayerOp.damage]).health ≤ 5 :=
  ⟨by decide, player_health_upper_bound (mkPlayer 48 48) [PlayerOp.damage] (by decide)⟩

/-- No two active power-ups share a kind. -/
def distinct_kinds (l : List PowerUp) : Prop :=
  l.Pairwise (fun a b => a.type ≠ b.type)

/-- A sequence of `add_powerup(kind, duration)` calls. -/
def add_powerup_calls (p : Player) (calls : List (PowerUpType × ℤ)) : Player :=
  calls.foldl (fun q c => q.add_powerup c.1 c.2) p

theorem add_powerup_distinct (l : List PowerUp) (t : PowerUpType) (d : ℤ)
    (hl : distinct_kinds l) :
    distinct_kinds (l.filter (fun q => q.type ≠ t) ++ [⟨t, d⟩]) := by
  rw [distinct_kinds, List.pairwise_append]
  refine ⟨List.Pairwise.filter _ hl, by simp, ?_⟩
  intro a ha b hb
  rw [List.mem_filter] at ha
  rw [List.mem_singleton] at hb
  subst hb
  exact of_decide_eq_true ha.2

/-- C7. `add_powerup` with an already-active kind removes the prior
instance and installs the new one with the new duration: every entry of
the given kind after the call is the freshly installed one, and after any
sequence of `add_powerup` calls on a player whose active set already has
pairwise-distinct kinds (in particular, the initial empty set), the
active set still has pairwise-distinct kinds. -/
theorem add_powerup_no_stacking :
    (∀ (p : Player) (t : PowerUpType) (d : ℤ) (q : PowerUp),
        q ∈ (p.add_powerup t d).active_powerups → q.type = t → q = ⟨t, d⟩) ∧
    (∀ (p : Player) (calls : List (PowerUpType × ℤ)),
        distinct_kinds p.active_powerups →
        distinct_kinds (add_powerup_calls p calls).active_powerups) := by
  constructor
  · intro p t d q hq hqt
    rw [Player.add_powerup] at hq
    simp only [List.mem_append, List.mem_filter, List.mem_singleton] at hq
    rcases hq with ⟨_, hne⟩ | hsing
    · exact absurd hqt (of_decide_eq_true hne)
    · exact hsing
  · intro p calls
    induction calls generalizing p with
    | nil => exact fun h => h
    | cons c rest ih =>
      intro hp
      rw [add_powerup_calls, List.foldl_cons]
      exact ih _ (add_powerup_distinct _ c.1 c.2 hp)

/-- Witness for C7: two SpeedBoost grants on the initial player still
leave pairwise-distinct kinds. -/
theorem add_powerup_no_stacking_witness :
    distinct_kinds (mkPlayer 48 48).active_powerups ∧
    distinct_kinds (add_powerup_calls (mkPlayer 48 48)
      [(PowerUpType.SPEED_BOOST, 300), (PowerUpType.SPEED_BOOST, 100)]).active_powerups :=
  ⟨List.Pairwise.nil,
   add_powerup_no_stacking.2 (mkPlayer 48 48)
     [(PowerUpType.SPEED_BOOST, 300), (PowerUpType.SPEED_BOOST, 100)] List.Pairwise.nil⟩

/-! ### Ghost (`entities.py`, class `Ghost`) -/

/-- The three AI states of a ghost (`ret` renders the source's
`"return"` string, a reserved word in Lean). -/
inductive GhostAIState where
  | patrol
  | chase
  | ret
deriving DecidableEq, Repr

/-- The mutable ghost state read or written by `Ghost.update`. -/
structure Ghost where
  x : ℝ
  y : ℝ
  start_x : ℝ
  start_y : ℝ
  vx : ℝ
  vy : ℝ
  state : GhostAIState
  patrol_points : List (ℝ × ℝ)
  current_patrol_target : ℕ
  chase_timer : ℤ

/-- `Ghost.__init__(x, y, patrol_points)`: an empty route defaults to the
spawn point. -/
def mkGhost (x y : ℝ) (patrol_points : List (ℝ × ℝ)) : Ghost :=
  { x := x, y := y, start_x := x, start_y := y, vx := 0, vy := 0,
    state := GhostAIState.patrol,
    patrol_points := if patrol_points.isEmpty then [(x, y)] else patrol_points,
    current_patrol_target := 0, chase_timer := 0 }

/-- Distance from ghost to player as computed at the top of `Ghost.update`. -/
noncomputable def Ghost.distance_to_player (g : Ghost) (player : Player) : ℝ :=
  Real.sqrt ((g.x - player.x) ^ 2 + (g.y - player.y) ^ 2)

/-- Distance recomputed inside `Ghost._chase_player`. -/
noncomputable def Ghost.chase_distance (g : Ghost) (player : Player) : ℝ :=
  Real.sqrt ((player.x - g.x) ^ 2 + (player.y - g.y) ^ 2)

/-- Distance recomputed inside `Ghost._return_to_start`. -/
noncomputable def Ghost.return_distance (g : Ghost) : ℝ :=
  Real.sqrt ((g.start_x - g.x) ^ 2 + (g.start_y - g.y) ^ 2)

/-- The waypoint `patrol_points[current_patrol_target]` read by
`Ghost._patrol`. -/
noncomputable def Ghost.patrol_target_point (g : Ghost) : ℝ × ℝ :=
  g.patrol_points.getD g.current_patrol_target (0, 0)

/-- Distance to the current waypoint, as computed inside `Ghost._patrol`. -/
noncomputable def Ghost.patrol_distance (g : Ghost) : ℝ :=
  Real.sqrt ((g.patrol_target_point.1 - g.x) ^ 2 + (g.patrol_target_point.2 - g.y) ^ 2)

/-- `Ghost._chase_player(player)`. -/
noncomputable def Ghost.chase_player (g : Ghost) (player : Player) : Ghost :=
  if 0 < g.chase_distance player then
    let speed := if player.time_slow_active then GHOST_CHASE_SPEED * 0.4 else GHOST_CHASE_SPEED
    { g with vx := (player.x - g.x) / g.chase_distance player * speed,
             vy := (player.y - g.y) / g.chase_distance player * speed }
  else g

/-- `Ghost._return_to_start()` (the cached `_player_ref` is passed
explicitly). -/
noncomputable def Ghost.return_to_start (g : Ghost) (player : Player) : Ghost :=
  if 0 < g.return_distance then
    let speed := if player.time_slow_active then GHOST_SPEED * 0.4 else GHOST_SPEED
    { g with vx := (g.start_x - g.x) / g.return_distance * speed,
             vy := (g.start_y - g.y) / g.return_distance * speed }
  else
    { g with vx := 0, vy := 0 }

/-- `Ghost._patrol()` (the cached `_player_ref` is passed explicitly). -/
noncomputable def Ghost.patrol_step (g : Ghost) (player : Player) : Ghost :=
  if g.patrol_points.isEmpty then
    { g with vx := 0, vy := 0 }
  else
    if g.patrol_distance < 10 then
      { g with current_patrol_target :=
          (g.current_patrol_target + 1) % g.patrol_points.length }
    else
      let speed := if player.time_slow_active then GHOST_SPEED * 0.4 else GHOST_SPEED
      { g with vx := (g.patrol_target_point.1 - g.x) / g.patrol_distance * speed,
               vy := (g.patrol_target_point.2 - g.y) / g.patrol_distance * speed }

/-- `Ghost._check_wall_collision`: the single occupied tile. -/
noncomputable def Ghost.check_wall_collision (x y : ℝ) (tile_map : TileMap) : Bool :=
  tile_map.is_solid_tile ⌊x / (TILE_SIZE : ℝ)⌋ ⌊y / (TILE_SIZE : ℝ)⌋

/-- The state-management block at the top of `Ghost.update`, returning
the updated ghost and the `started_chasing` flag. -/
noncomputable def Ghost.state_transition (g : Ghost) (player : Player) : Ghost × Bool :=
  match g.state with
  | GhostAIState.patrol =>
    if g.distance_to_player player ≤ GHOST_DETECTION_RADIUS ∧
        player.invisibility_active = false then
      ({ g with state := GhostAIState.chase, chase_timer := 300 }, true)
    else
      (g, false)
  | GhostAIState.chase =>
    if g.chase_timer - 1 ≤ 0 ∨ GHOST_DETECTION_RADIUS * 1.5 < g.distance_to_player player then
      ({ g with state := GhostAIState.ret, chase_timer := g.chase_timer - 1 }, false)
    else
      ({ g with chase_timer := g.chase_timer - 1 }, false)
  | GhostAIState.ret =>
    if Real.sqrt ((g.x - g.start_x) ^ 2 + (g.y - g.start_y) ^ 2) < 20 then
      ({ g with state := GhostAIState.patrol }, false)
    else
      (g, false)

/-- The movement dispatch in `Ghost.update` (chase / return / patrol). -/
noncomputable def Ghost.select_movement (g : Ghost) (player : Player) : Ghost :=
  match g.state with
  | GhostAIState.chase => g.chase_player player
  | GhostAIState.ret => g.return_to_start player
  | GhostAIState.patrol => g.patrol_step player

/-- The per-axis movement application in `Ghost.update` (ghosts keep
their velocity on collision, only the position write is skipped). -/
noncomputable def Ghost.apply_movement (g : Ghost) (tile_map : TileMap) : Ghost :=
  let new_x := g.x + g.vx
  let new_y := g.y + g.vy
  let x2 := if Ghost.check_wall_collision new_x g.y tile_map then g.x else new_x
  let y2 := if Ghost.check_wall_collision x2 new_y tile_map then g.y else new_y
  { g with x := x2, y := y2 }

/-- `Ghost.update(player, tile_map)`: state management, movement
selection, movement application; returns the new ghost state and the
`started_chasing` event. -/
noncomputable def Ghost.update (g : Ghost) (player : Player) (tile_map : TileMap) :
    Ghost × Bool :=
  let sm := g.state_transition player
  ((sm.1.select_movement player).apply_movement tile_map, sm.2)

theorem chase_player_state (g : Ghost) (player : Player) :
    (g.chase_player player).state = g.state := by
  rw [Ghost.chase_player]
  split <;> rfl

theorem return_to_start_state (g : Ghost) (player : Player) :
    (g.return_to_start player).state = g.state := by
  rw [Ghost.return_to_start]
  split <;> rfl

theorem patrol_step_state (g : Ghost) (player : Player) :
    (g.patrol_step player).state = g.state := by
  rw [Ghost.patrol_step]
  split
  · rfl
  · split <;> rfl

theorem select_movement_state (g : Ghost) (player : Player) :
    (g.select_movement player).state = g.state := by
  cases hst : g.state <;>
    simp [Ghost.select_movement, hst, chase_player_state, return_to_start_state,
      patrol_step_state]

theorem apply_movement_state (g : Ghost) (tile_map : TileMap) :
    (g.apply_movement tile_map).state = g.state := rfl

theorem ghost_update_snd (g : Ghost) (player : Player) (tile_map : TileMap) :
    (g.update player tile_map).2 = (g.state_transition player).2 := rfl

theorem ghost_update_state (g : Ghost) (player : Player) (tile_map : TileMap) :
    (g.update player tile_map).1.state = (g.state_transition player).1.state := by
  show ((_ : Ghost).apply_movement tile_map).state = _
  rw [apply_movement_state, select_movement_state]

/-! ### Claim C4: the Patrol→Chase transition and its event -/

/-- C4. `Ghost.update` returns `started_chasing = true` exactly when the
ghost was in Patrol with the player within detection radius and not
invisible; and from Patrol the resulting state is Chase exactly under
that same detection condition (so the event fires on the transition tick
only — in Chase or Return the event is always false). -/
theorem ghost_chase_event (g : Ghost) (player : Player) (tile_map : TileMap) :
    ((g.update player tile_map).2 = true ↔
      (g.state = GhostAIState.patrol ∧
       g.distance_to_player player ≤ GHOST_DETECTION_RADIUS ∧
       player.invisibility_active = false)) ∧
    (g.state = GhostAIState.patrol →
      ((g.update player tile_map).1.state = GhostAIState.chase ↔
        (g.distance_to_player player ≤ GHOST_DETECTION_RADIUS ∧
         player.invisibility_active = false))) := by
  constructor
  · rw [ghost_update_snd, Ghost.state_transition]
    cases hst : g.state with
    | patrol =>
      by_cases hdet : g.distance_to_player player ≤ GHOST_DETECTION_RADIUS ∧
          player.invisibility_active = false
      · simp only [if_pos hdet]
        simp [hst, hdet]
      · simp only [if_neg hdet]
        simp [hst, hdet]
    | chase =>
      simp only [apply_ite Prod.snd, ite_self]
      simp [hst]
    | ret =>
      simp only [apply_ite Prod.snd, ite_self]
      simp [hst]
  · intro hst
    rw [ghost_update_state, Ghost.state_transition]
    by_cases hdet : g.distance_to_player player ≤ GHOST_DETECTION_RADIUS ∧
        player.invisibility_active = false
    · simp [hst, if_pos hdet, hdet]
    · simp [hst, if_neg hdet, hdet]

/-- Witness for C4: a patrolling ghost on top of a visible player starts
chasing. -/
theorem ghost_chase_event_witness :
    (mkGhost 48 48 []).state = GhostAIState.patrol ∧
    ((mkGhost 48 48 []).update (mkPlayer 48 48) (mkTileMap 3 3)).2 = true := by
  have hdist : (mkGhost 48 48 []).distance_to_player (mkPlayer 48 48) ≤
      GHOST_DETECTION_RADIUS := by
    rw [Ghost.distance_to_player]
    norm_num [mkGhost, mkPlayer, GHOST_DETECTION_RADIUS, Real.sqrt_zero]
  exact ⟨rfl,
    (ghost_chase_event (mkGhost 48 48 []) (mkPlayer 48 48) (mkTileMap 3 3)).1.mpr
      ⟨rfl, hdist, rfl⟩⟩

/-! ### Claim C5: patrol movement -/

theorem sqrt_400 : Real.sqrt 400 = 20 := by
  rw [show (400 : ℝ) = 20 ^ 2 by norm_num, Real.sqrt_sq (by norm_num)]

/-- Scaling the displacement by `speed / distance` yields a velocity of
magnitude exactly `speed`. -/
theorem unit_scale_norm (dx dy s : ℝ) (hd : 0 < Real.sqrt (dx ^ 2 + dy ^ 2)) (hs : 0 ≤ s) :
    Real.sqrt ((dx / Real.sqrt (dx ^ 2 + dy ^ 2) * s) ^ 2 +
      (dy / Real.sqrt (dx ^ 2 + dy ^ 2) * s) ^ 2) = s := by
  have hsum : 0 < dx ^ 2 + dy ^ 2 := Real.sqrt_pos.mp hd
  have hd2 : Real.sqrt (dx ^ 2 + dy ^ 2) ^ 2 = dx ^ 2 + dy ^ 2 := Real.sq_sqrt hsum.le
  have hexp : (dx / Real.sqrt (dx ^ 2 + dy ^ 2) * s) ^ 2 +
      (dy / Real.sqrt (dx ^ 2 + dy ^ 2) * s) ^ 2 =
      s ^ 2 * ((dx ^ 2 + dy ^ 2) / Real.sqrt (dx ^ 2 + dy ^ 2) ^ 2) := by
    field_simp
    ring
  rw [hexp, hd2, div_self hsum.ne', mul_one, Real.sqrt_sq hs]

/-- C5 counterexample: a patrolling ghost 20 px from its waypoint (at
least the arrival threshold 10) moves at magnitude 0.6, not
`GHOST_SPEED`, when the player's TimeSlow is active. -/
theorem ghost_patrol_speed_cex :
    10 ≤ (mkGhost 0 0 [(20, 0)]).patrol_distance ∧
    Real.sqrt (((mkGhost 0 0 [(20, 0)]).patrol_step
        { mkPlayer 0 0 with time_slow_active := true }).vx ^ 2 +
      ((mkGhost 0 0 [(20, 0)]).patrol_step
        { mkPlayer 0 0 with time_slow_active := true }).vy ^ 2) ≠ GHOST_SPEED := by
  have htarget : (mkGhost 0 0 [(20, 0)]).patrol_target_point = ((20 : ℝ), (0 : ℝ)) := rfl
  have hdist : (mkGhost 0 0 [(20, 0)]).patrol_distance = 20 := by
    rw [Ghost.patrol_distance, htarget]
    have hx : (mkGhost 0 0 [(20, 0)]).x = 0 := rfl
    have hy : (mkGhost 0 0 [(20, 0)]).y = 0 := rfl
    rw [hx, hy]
    rw [show ((20 : ℝ), (0 : ℝ)).1 - 0 = 20 by norm_num,
      show ((20 : ℝ), (0 : ℝ)).2 - 0 = 0 by norm_num]
    rw [show (20 : ℝ) ^ 2 + 0 ^ 2 = 400 by norm_num]
    exact sqrt_400
  have hne : (mkGhost 0 0 [(20, 0)]).patrol_points.isEmpty = false := rfl
  have hstep : (mkGhost 0 0 [(20, 0)]).patrol_step
      { mkPlayer 0 0 with time_slow_active := true } =
      { mkGhost 0 0 [(20, 0)] with vx := 0.6, vy := 0 } := by
    rw [Ghost.patrol_step, hne]
    rw [if_neg (by simp)]
    rw [if_neg (by rw [hdist]; norm_num)]
    rw [htarget, hdist]
    have hts : ({ mkPlayer 0 0 with time_slow_active := true } : Player).time_slow_active =
        true := rfl
    rw [hts, if_pos rfl]
    have hx : (mkGhost 0 0 [(20, 0)]).x = 0 := rfl
    have hy : (mkGhost 0 0 [(20, 0)]).y = 0 := rfl
    rw [hx, hy]
    norm_num [GHOST_SPEED]
    exact ⟨hx.symm, hy.symm⟩
  refine ⟨by rw [hdist]; norm_num, ?_⟩
  rw [hstep]
  have hvx : ({ mkGhost 0 0 [(20, 0)] with vx := (0.6 : ℝ), vy := (0 : ℝ) } : Ghost).vx =
      0.6 := rfl
  have hvy : ({ mkGhost 0 0 [(20, 0)] with vx := (0.6 : ℝ), vy := (0 : ℝ) } : Ghost).vy =
      0 := rfl
  rw [hvx, hvy, show (0.6 : ℝ) ^ 2 + 0 ^ 2 = 0.6 ^ 2 by ring,
    Real.sqrt_sq (by norm_num)]
  norm_num [GHOST_SPEED]

/-- C5 as amended. For a patrolling ghost with a nonempty route whose
distance to the current waypoint is at least the arrival threshold 10,
provided the player's TimeSlow is not active, `_patrol` sets the
velocity to the displacement scaled to magnitude exactly `GHOST_SPEED`
(directed at the waypoint) and keeps the waypoint index; when the
distance is below the threshold it instead advances the index cyclically
modulo the route length (with TimeSlow active the moving speed is
`GHOST_SPEED × 0.4`, the deviation the counterexample exhibits). -/
theorem ghost_patrol_step_spec (g : Ghost) (player : Player)
    (hne : g.patrol_points.isEmpty = false)
    (hslow : player.time_slow_active = false) :
    (10 ≤ g.patrol_distance →
      ((g.patrol_step player).vx =
         (g.patrol_target_point.1 - g.x) / g.patrol_distance * GHOST_SPEED ∧
       (g.patrol_step player).vy =
         (g.patrol_target_point.2 - g.y) / g.patrol_distance * GHOST_SPEED ∧
       Real.sqrt ((g.patrol_step player).vx ^ 2 + (g.patrol_step player).vy ^ 2) =
         GHOST_SPEED ∧
       (g.patrol_step player).current_patrol_target = g.current_patrol_target)) ∧
    (g.patrol_distance < 10 →
      (g.patrol_step player).current_patrol_target =
        (g.current_patrol_target + 1) % g.patrol_points.length) := by
  constructor
  · intro h10
    have hnlt : ¬ (g.patrol_distance < 10) := not_lt.mpr h10
    have hstep : g.patrol_step player =
        { g with vx := (g.patrol_target_point.1 - g.x) / g.patrol_distance * GHOST_SPEED,
                 vy := (g.patrol_target_point.2 - g.y) / g.patrol_distance * GHOST_SPEED } := by
      rw [Ghost.patrol_step, hne]
      rw [if_neg (by simp), if_neg hnlt, hslow]
      rfl
    rw [hstep]
    refine ⟨rfl, rfl, ?_, rfl⟩
    have hd : 0 < g.patrol_distance := lt_of_lt_of_le (by norm_num) h10
    have hd' : 0 < Real.sqrt ((g.patrol_target_point.1 - g.x) ^ 2 +
        (g.patrol_target_point.2 - g.y) ^ 2) := hd
    show Real.sqrt (((g.patrol_target_point.1 - g.x) / g.patrol_distance * GHOST_SPEED) ^ 2 +
        ((g.patrol_target_point.2 - g.y) / g.patrol_distance * GHOST_SPEED) ^ 2) = GHOST_SPEED
    rw [Ghost.patrol_distance]
    exact unit_scale_norm _ _ _ hd' (by norm_num [GHOST_SPEED])
  · intro hlt
    rw [Ghost.patrol_step, hne]
    rw [if_neg (by simp), if_pos hlt]

/-- Witness for the amended C5: a ghost 20 px from its waypoint with no
TimeSlow moves at exactly `GHOST_SPEED`. -/
theorem ghost_patrol_step_spec_witness :
    (mkGhost 0 0 [(20, 0)]).patrol_points.isEmpty = false ∧
    (mkPlayer 0 0).time_slow_active = false ∧
    10 ≤ (mkGhost 0 0 [(20, 0)]).patrol_distance ∧
    Real.sqrt (((mkGhost 0 0 [(20, 0)]).patrol_step (mkPlayer 0 0)).vx ^ 2 +
      ((mkGhost 0 0 [(20, 0)]).patrol_step (mkPlayer 0 0)).vy ^ 2) = GHOST_SPEED := by
  have hdist : (mkGhost 0 0 [(20, 0)]).patrol_distance = 20 := by
    rw [Ghost.patrol_distance]
    rw [show (mkGhost 0 0 [(20, 0)]).patrol_target_point = ((20 : ℝ), (0 : ℝ)) from rfl]
    rw [show (mkGhost 0 0 [(20, 0)]).x = 0 from rfl,
      show (mkGhost 0 0 [(20, 0)]).y = 0 from rfl]
    rw [show ((20 : ℝ), (0 : ℝ)).1 - 0 = 20 by norm_num,
      show ((20 : ℝ), (0 : ℝ)).2 - 0 = 0 by norm_num]
    rw [show (20 : ℝ) ^ 2 + 0 ^ 2 = 400 by norm_num]
    exact sqrt_400
  have h10 : (10 : ℝ) ≤ (mkGhost 0 0 [(20, 0)]).patrol_distance := by
    rw [hdist]; norm_num
  exact ⟨rfl, rfl, h10,
    ((ghost_patrol_step_spec (mkGhost 0 0 [(20, 0)]) (mkPlayer 0 0) rfl rfl).1 h10).2.2.1⟩

/-! ### Claim C10: all ghost movement divisions are guarded -/

/-- Division that fails explicitly on a zero divisor. -/
noncomputable def div? (a b : ℝ) : Option ℝ :=
  if b = 0 then none else some (a / b)

/-- `Ghost._chase_player` with every division checked. -/
noncomputable def Ghost.chase_player_checked (g : Ghost) (player : Player) : Option Ghost :=
  if 0 < g.chase_distance player then
    let speed := if player.time_slow_active then GHOST_CHASE_SPEED * 0.4 else GHOST_CHASE_SPEED
    (div? (player.x - g.x) (g.chase_distance player)).bind fun ux =>
      (div? (player.y - g.y) (g.chase_distance player)).map fun uy =>
        { g with vx := ux * speed, vy := uy * speed }
  else
    some g

/-- `Ghost._return_to_start` with every division checked. -/
noncomputable def Ghost.return_to_start_checked (g : Ghost) (player : Player) : Option Ghost :=
  if 0 < g.return_distance then
    let speed := if player.time_slow_active then GHOST_SPEED * 0.4 else GHOST_SPEED
    (div? (g.start_x - g.x) g.return_distance).bind fun ux =>
      (div? (g.start_y - g.y) g.return_distance).map fun uy =>
        { g with vx := ux * speed, vy := uy * speed }
  else
    some { g with vx := 0, vy := 0 }

/-- `Ghost._patrol` with every division checked. -/
noncomputable def Ghost.patrol_step_checked (g : Ghost) (player : Player) : Option Ghost :=
  if g.patrol_points.isEmpty then
    some { g with vx := 0, vy := 0 }
  else
    if g.patrol_distance < 10 then
      some { g with current_patrol_target :=
        (g.current_patrol_target + 1) % g.patrol_points.length }
    else
      let speed := if player.time_slow_active then GHOST_SPEED * 0.4 else GHOST_SPEED
      (div? (g.patrol_target_point.1 - g.x) g.patrol_distance).bind fun ux =>
        (div? (g.patrol_target_point.2 - g.y) g.patrol_distance).map fun uy =>
          { g with vx := ux * speed, vy := uy * speed }

theorem chase_player_checked_eq (g : Ghost) (player : Player) :
    g.chase_player_checked player = some (g.chase_player player) := by
  rw [Ghost.chase_player_checked, Ghost.chase_player]
  by_cases h : 0 < g.chase_distance player
  · rw [if_pos h, if_pos h]
    simp [div?, h.ne']
  · rw [if_neg h, if_neg h]

theorem return_to_start_checked_eq (g : Ghost) (player : Player) :
    g.return_to_start_checked player = some (g.return_to_start player) := by
  rw [Ghost.return_to_start_checked, Ghost.return_to_start]
  by_cases h : 0 < g.return_distance
  · rw [if_pos h, if_pos h]
    simp [div?, h.ne']
  · rw [if_neg h, if_neg h]

theorem patrol_step_checked_eq (g : Ghost) (player : Player) :
    g.patrol_step_checked player = some (g.patrol_step player) := by
  rw [Ghost.patrol_step_checked, Ghost.patrol_step]
  by_cases hne : g.patrol_points.isEmpty
  · rw [if_pos hne, if_pos hne]
  · rw [if_neg hne, if_neg hne]
    by_cases hlt : g.patrol_distance < 10
    · rw [if_pos hlt, if_pos hlt]
    · rw [if_neg hlt, if_neg hlt]
      have hpos : 0 < g.patrol_distance := lt_of_lt_of_le (by norm_num) (not_lt.mp hlt)
      simp [div?, hpos.ne']

/-- Movement dispatch with checked divisions. -/
noncomputable def Ghost.select_movement_checked (g : Ghost) (player : Player) : Option Ghost :=
  match g.state with
  | GhostAIState.chase => g.chase_player_checked player
  | GhostAIState.ret => g.return_to_start_checked player
  | GhostAIState.patrol => g.patrol_step_checked player

/-- `Ghost.update` with every division site checked: fails if any
division by zero would be executed. -/
noncomputable def Ghost.update_checked (g : Ghost) (player : Player) (tile_map : TileMap) :
    Option (Ghost × Bool) :=
  let sm := g.state_transition player
  (sm.1.select_movement_checked player).map fun g2 => (g2.apply_movement tile_map, sm.2)

/-- C10. `Ghost.update` never divides by zero: each division in the
chase, return, and patrol branches is guarded by a strictly positive
distance, so the division-checked update always succeeds and agrees with
the unchecked one on every ghost state, player, and map. -/
theorem ghost_update_total (g : Ghost) (player : Player) (tile_map : TileMap) :
    g.update_checked player tile_map = some (g.update player tile_map) := by
  rw [Ghost.update_checked, Ghost.update]
  cases hst : (g.state_transition player).1.state <;>
    simp [Ghost.select_movement_checked, Ghost.select_movement, hst,
      chase_player_checked_eq, return_to_start_checked_eq, patrol_step_checked_eq]

/-! ### Candy (`entities.py`, class `Candy`) -/

/-- The three candy kinds (`"normal"`, `"cursed"`, `"bonus"` strings in
the source). -/
inductive CandyType where
  | normal
  | cursed
  | bonus
deriving DecidableEq, Repr

/-- The `Candy` state read or written by `Candy.collect`. -/
structure Candy where
  x : ℝ
  y : ℝ
  type : CandyType
  points : ℤ
  collected : Bool
  glow_timer : ℤ

/-- `Candy.__init__(x, y, candy_type, points)`. -/
def mkCandy (x y : ℝ) (candy_type : CandyType) (points : ℤ) : Candy :=
  { x := x, y := y, type := candy_type, points := points,
    collected := false, glow_timer := 0 }

/-- `Candy.collect(player)`: first collection marks the candy, credits the
player, applies the kind-specific effect, and returns the pickup burst
(the 8 random particles are passed in as `pickup_particles`); on an
already-collected candy nothing happens and no particles are returned. -/
def Candy.collect (c : Candy) (player : Player) (pickup_particles : List Particle) :
    Candy × Player × List Particle :=
  if c.collected = false then
    let c2 := { c with collected := true }
    let p1 := player.collect_candy c.points
    let p2 :=
      match c.type with
      | CandyType.cursed => p1.add_powerup PowerUpType.SPEED_BOOST 300
      | CandyType.bonus => ({ p1 with score := p1.score + c.points }).heal 1
      | CandyType.normal => p1
    (c2, p2, pickup_particles)
  else
    (c, player, [])

/-! ### Claim C8: collecting twice is idempotent -/

/-- C8. A `collect` call on an already-collected candy leaves the candy
and the player (candy counter, score, health, power-up set) entirely
unchanged and returns an empty particle list. -/
theorem candy_collect_idempotent (c : Candy) (player : Player)
    (pickup_particles : List Particle) (h : c.collected = true) :
    c.collect player pickup_particles = (c, player, []) := by
  rw [Candy.collect, if_neg (by rw [h]; simp)]

/-- Witness for C8 at a concrete collected candy. -/
theorem candy_collect_idempotent_witness :
    ({ mkCandy 10 10 CandyType.normal 10 with collected := true } : Candy).collected = true ∧
    ({ mkCandy 10 10 CandyType.normal 10 with collected := true } : Candy).collect
        (mkPlayer 48 48) [] =
      ({ mkCandy 10 10 CandyType.normal 10 with collected := true }, mkPlayer 48 48, []) :=
  ⟨rfl, candy_collect_idempotent _ _ _ rfl⟩

/-! ### Church puzzle (`special_features.py`, class `ChurchPuzzle`) -/

/-- The four altar symbols. -/
inductive ChurchSymbol where
  | cross
  | candle
  | bible
  | angel
deriving DecidableEq, Repr

/-- `self.symbols` in `ChurchPuzzle.__init__`. -/
def church_symbols : List ChurchSymbol :=
  [ChurchSymbol.cross, ChurchSymbol.candle, ChurchSymbol.bible, ChurchSymbol.angel]

/-- `self.target_order` in `ChurchPuzzle.__init__`. -/
def church_target : List ChurchSymbol :=
  [ChurchSymbol.angel, ChurchSymbol.bible, ChurchSymbol.candle, ChurchSymbol.cross]

/-- The `ChurchPuzzle` state read or written by `interact`/`handle_input`. -/
structure ChurchPuzzle where
  x : ℝ
  y : ℝ
  active : Bool
  completed : Bool
  current_order : List ChurchSymbol
  target_order : List ChurchSymbol
  selected_symbol : ℕ

/-- `ChurchPuzzle.__init__(x, y)`; the initial `random.shuffle` of the
symbol copy is the `shuffle` oracle. -/
def mkChurchPuzzle (x y : ℝ) (shuffle : List ChurchSymbol → List ChurchSymbol) :
    ChurchPuzzle :=
  { x := x, y := y, active := false, completed := false,
    current_order := shuffle church_symbols, target_order := church_target,
    selected_symbol := 0 }

/-- The Python tuple swap of two positions of `current_order`. -/
def swap_positions (l : List ChurchSymbol) (i j : ℕ) : List ChurchSymbol :=
  (l.set i (l.getD j ChurchSymbol.cross)).set j (l.getD i ChurchSymbol.cross)

/-- The two swap keys read by `ChurchPuzzle.handle_input`. -/
structure PuzzleKeys where
  left : Bool
  right : Bool

/-- No swap key pressed. -/
def noPuzzleKeys : PuzzleKeys := ⟨false, false⟩

/-- `ChurchPuzzle.handle_input(keys_pressed, space_pressed)`: optional
adjacent swap, then on SPACE either completion (exact match) or a
penalty reshuffle (`shuffle` is the `random.shuffle` oracle,
`celebration` the random success burst). Returns the new puzzle state,
the completed flag of the source's return pair, and the particles. -/
def ChurchPuzzle.handle_input (pz : ChurchPuzzle) (keys : PuzzleKeys) (space_pressed : Bool)
    (shuffle : List ChurchSymbol → List ChurchSymbol) (celebration : List Particle) :
    ChurchPuzzle × Bool × List Particle :=
  if pz.active = false ∨ pz.completed = true then
    (pz, false, [])
  else
    let pz1 :=
      if keys.left then
        if 0 < pz.selected_symbol then
          { pz with
            current_order :=
              swap_positions pz.current_order pz.selected_symbol (pz.selected_symbol - 1),
            selected_symbol := pz.selected_symbol - 1 }
        else pz
      else if keys.right then
        if pz.selected_symbol < pz.current_order.length - 1 then
          { pz with
            current_order :=
              swap_positions pz.current_order pz.selected_symbol (pz.selected_symbol + 1),
            selected_symbol := pz.selected_symbol + 1 }
        else pz
      else pz
    if space_pressed then
      if pz1.current_order = pz1.target_order then
        ({ pz1 with completed := true, active := false }, true, celebration)
      else
        ({ pz1 with current_order := shuffle pz1.current_order }, false, [])
    else
      (pz1, false, [])

/-- `ChurchPuzzle.interact(player)`: proximity check, then activation. -/
noncomputable def ChurchPuzzle.interact (pz : ChurchPuzzle) (player : Player) :
    ChurchPuzzle × Bool × String :=
  if 50 < Real.sqrt ((player.x - pz.x) ^ 2 + (player.y - pz.y) ^ 2) then
    (pz, false, "Get closer to the altar!")
  else if pz.completed = true then
    (pz, false, "Puzzle already solved!")
  else if pz.active = false then
    ({ pz with active := true }, true, "Use WASD to rearrange symbols, SPACE to confirm.")
  else
    (pz, false, "")

/-! ### Claim C9: submitting the symbol puzzle -/

/-- C9. On an active, non-completed puzzle with no swap key pressed:
submitting with the current order equal to the target sets `completed`
and deactivates the puzzle; submitting with any other order reshuffles
the current order, keeps `completed` false, and keeps the puzzle active.
Completion is irreversible: once `completed` is set, neither
`handle_input` nor `interact` ever clears it. -/
theorem church_puzzle_submit :
    (∀ (pz : ChurchPuzzle) (shuffle : List ChurchSymbol → List ChurchSymbol)
        (celebration : List Particle),
      pz.active = true → pz.completed = false →
      ((pz.current_order = pz.target_order →
          ((pz.handle_input noPuzzleKeys true shuffle celebration).1.completed = true ∧
           (pz.handle_input noPuzzleKeys true shuffle celebration).1.active = false)) ∧
       (pz.current_order ≠ pz.target_order →
          ((pz.handle_input noPuzzleKeys true shuffle celebration).1.completed = false ∧
           (pz.handle_input noPuzzleKeys true shuffle celebration).1.active = true ∧
           (pz.handle_input noPuzzleKeys true shuffle celebration).1.current_order =
             shuffle pz.current_order)))) ∧
    (∀ (pz : ChurchPuzzle) (keys : PuzzleKeys) (space_pressed : Bool)
        (shuffle : List ChurchSymbol → List ChurchSymbol) (celebration : List Particle)
        (player : Player),
      pz.completed = true →
      ((pz.handle_input keys space_pressed shuffle celebration).1.completed = true ∧
       (pz.interact player).1.completed = true)) := by
  constructor
  · intro pz shuffle celebration hact hcomp
    have hcond : ¬ (pz.active = false ∨ pz.completed = true) := by
      simp [hact, hcomp]
    constructor
    · intro heq
      simp [ChurchPuzzle.handle_input, hcond, noPuzzleKeys, heq]
    · intro hne
      simp [ChurchPuzzle.handle_input, hcond, noPuzzleKeys, hne, hcomp, hact]
  · intro pz keys space_pressed shuffle celebration player hcomp
    constructor
    · rw [ChurchPuzzle.handle_input, if_pos (Or.inr hcomp)]
      exact hcomp
    · rw [ChurchPuzzle.interact]
      split_ifs <;> exact hcomp

/-- A concrete already-solved configuration of the puzzle. -/
def readyPuzzle : ChurchPuzzle :=
  { x := 0, y := 0, active := true, completed := false,
    current_order := church_target, target_order := church_target,
    selected_symbol := 0 }

/-- Witness for C9: submitting the target order on an active puzzle
completes it. -/
theorem church_puzzle_submit_witness :
    readyPuzzle.active = true ∧ readyPuzzle.completed = false ∧
    readyPuzzle.current_order = readyPuzzle.target_order ∧
    (readyPuzzle.handle_input noPuzzleKeys true id []).1.completed = true :=
  ⟨rfl, rfl, rfl, ((church_puzzle_submit.1 readyPuzzle id [] rfl rfl).1 rfl).1⟩

end HalloweenHaunt
